import Mathlib

/-!
Shallow embedding of the Timer_oracle dual-chain oracle server
(`src/unnamed/part_001`) and of the cross-chain transaction verifier
(`src/backend/services/crossChainTransactionVerifier.js`), with theorems
settling the specification claims about them.

Times are modelled as wall-clock UNIX seconds (`Nat`); subtractions that the
JavaScript source performs on (possibly negative) numbers are computed in
`Int`.  Trade ids, request ids, addresses and hashes are modelled as `Nat`
(the source keys its maps by the decimal string of the id, which is an
injective image of the id).  JavaScript `Map`s are modelled as association
lists with unique keys, `Set`s as lists.
-/

namespace TimerOracle

/-! ## Association-list maps (the JS `Map`s) -/

namespace KV

def get {α : Type} : List (Nat × α) → Nat → Option α
  | [], _ => none
  | (k, v) :: rest, key => if k = key then some v else get rest key

def set {α : Type} : List (Nat × α) → Nat → α → List (Nat × α)
  | [], k, v => [(k, v)]
  | (k', v') :: rest, k, v =>
      if k' = k then (k, v) :: rest else (k', v') :: set rest k v

def del {α : Type} : List (Nat × α) → Nat → List (Nat × α)
  | [], _ => []
  | (k', v') :: rest, k =>
      if k' = k then del rest k else (k', v') :: del rest k

end KV

/-- `Set.add` of the JS processing sets. -/
def addId (l : List Nat) (t : Nat) : List Nat :=
  if l.contains t then l else t :: l

/-- `Set.delete` of the JS processing sets. -/
def removeId (l : List Nat) (t : Nat) : List Nat :=
  l.filter (fun x => x ≠ t)

/-! ## Trade records

The asset-side record created by `handleAssetTimeRequest` has fields
`inceptionTime`, `duration`, `lastRequestId`, `lastRequestTime`; the
payment-side record additionally has `isConfirmationPhase`.  Neither handler
ever assigns a `confirmationTime` field, although the sweeper reads it; the
unset JS field is modelled as `Option Nat` that remains `none`. -/

structure AssetRecord where
  inceptionTime : Nat
  duration : Nat
  lastRequestId : Nat
  lastRequestTime : Nat
  confirmationTime : Option Nat
deriving Repr, DecidableEq

structure PaymentRecord where
  inceptionTime : Nat
  duration : Nat
  lastRequestId : Nat
  lastRequestTime : Nat
  isConfirmationPhase : Bool
  confirmationTime : Option Nat
deriving Repr, DecidableEq

/-- The single `crossChainTrades` map uses string keys `asset_<id>` and
`payment_<id>`; the two disjoint key families are modelled as two maps. -/
structure CrossMap where
  assetKeyed : List (Nat × Nat)
  payKeyed : List (Nat × Nat)
deriving Repr, DecidableEq

/-- The oracle's in-memory state: the two trade tables, the cross-chain
mapping, the two processing sets and the two deferred event queues. -/
structure OState where
  assetTrades : List (Nat × AssetRecord)
  paymentTrades : List (Nat × PaymentRecord)
  cross : CrossMap
  processingAsset : List Nat
  processingPayment : List Nat
  assetQueue : List (Nat × Nat × Nat)
  paymentQueue : List (Nat × Nat × Nat)
deriving Repr, DecidableEq

/-- On-chain oracle callbacks successfully submitted by a handler run. -/
inductive Call
  | fulfillAsset (reqId time : Nat)
  | fulfillPayment (reqId time : Nat)
  | failAsset (tid : Nat)
  | failPayment (tid : Nat)
deriving Repr, DecidableEq

/-! ## Failed-confirmation handlers

`handleAssetFailedConfirmation` submits `handleFailedConfirmation` on the
asset contract, consults `crossChainTrades` for a paired payment leg,
clears both mapping keys, propagates to the peer when it is live and not
being processed, and finally deletes its own record
(`src/unnamed/part_001` lines 280-340; the payment version lines 646-706).
The two functions are mutually recursive in the source; since each deletes
the pair keys before recursing, the nested call finds no pair and the
recursion depth is at most 2.  A fuel argument makes that termination
explicit; wrappers apply fuel 2, which is never exhausted on the paths
the source can take. -/

mutual

def handleAssetFailedConfirmationF : Nat → OState → Nat → OState × List Call
  | fuel, s, tid =>
    match KV.get s.cross.assetKeyed tid with
    | some pid =>
      let s1 : OState := { s with
        cross := ⟨KV.del s.cross.assetKeyed tid, KV.del s.cross.payKeyed pid⟩ }
      if (KV.get s1.paymentTrades pid).isSome && !(s1.processingPayment.contains pid) then
        match fuel with
        | 0 =>
          ({ s1 with assetTrades := KV.del s1.assetTrades tid }, [.failAsset tid])
        | fuel' + 1 =>
          let s2 : OState := { s1 with processingPayment := addId s1.processingPayment pid }
          let r2 := handlePaymentFailedConfirmationF fuel' s2 pid
          let s3 : OState := { r2.1 with processingPayment := removeId r2.1.processingPayment pid }
          ({ s3 with assetTrades := KV.del s3.assetTrades tid }, .failAsset tid :: r2.2)
      else
        ({ s1 with assetTrades := KV.del s1.assetTrades tid }, [.failAsset tid])
    | none =>
      ({ s with assetTrades := KV.del s.assetTrades tid }, [.failAsset tid])

def handlePaymentFailedConfirmationF : Nat → OState → Nat → OState × List Call
  | fuel, s, pid =>
    match KV.get s.cross.payKeyed pid with
    | some tid =>
      let s1 : OState := { s with
        cross := ⟨KV.del s.cross.assetKeyed tid, KV.del s.cross.payKeyed pid⟩ }
      if (KV.get s1.assetTrades tid).isSome && !(s1.processingAsset.contains tid) then
        match fuel with
        | 0 =>
          ({ s1 with paymentTrades := KV.del s1.paymentTrades pid }, [.failPayment pid])
        | fuel' + 1 =>
          let s2 : OState := { s1 with processingAsset := addId s1.processingAsset tid }
          let r2 := handleAssetFailedConfirmationF fuel' s2 tid
          let s3 : OState := { r2.1 with processingAsset := removeId r2.1.processingAsset tid }
          ({ s3 with paymentTrades := KV.del s3.paymentTrades pid }, .failPayment pid :: r2.2)
      else
        ({ s1 with paymentTrades := KV.del s1.paymentTrades pid }, [.failPayment pid])
    | none =>
      ({ s with paymentTrades := KV.del s.paymentTrades pid }, [.failPayment pid])

end

def handleAssetFailedConfirmation (s : OState) (tid : Nat) : OState × List Call :=
  handleAssetFailedConfirmationF 2 s tid

def handlePaymentFailedConfirmation (s : OState) (pid : Nat) : OState × List Call :=
  handlePaymentFailedConfirmationF 2 s pid

/-! ## Time-request handlers

`handleAssetTimeRequest` / `handlePaymentTimeRequest`
(`src/unnamed/part_001` lines 168-249 and 416-569).  The callback
submission inside a handler may throw (a terminal, non-recoverable error
from `fulfillAssetTime` / `fulfillPaymentTime` after their own internal
nonce retries); the Boolean `fulfillOk` selects between the success path
and the thrown path of that submission.  A `Call` is recorded when the
submission succeeds.  The `finally` clause's `processNextAssetEvent`
re-dispatches a queued event as a separate asynchronous invocation of the
handler; it is not folded into this one-event big step. -/

def handleAssetTimeRequest (s : OState) (reqId tid dur now : Nat)
    (fulfillOk : Bool) : OState × List Call :=
  if s.processingAsset.contains tid then
    ({ s with assetQueue := s.assetQueue ++ [(reqId, tid, dur)] }, [])
  else
    let s0 : OState := { s with processingAsset := addId s.processingAsset tid }
    let body : OState × List Call :=
      match KV.get s0.assetTrades tid with
      | none =>
        -- creation; `performImmediateDoubleSpendCheck` when a payment leg exists
        let cancel : Option (OState × List Call) :=
          match KV.get s0.paymentTrades tid with
          | some p =>
            if dur < p.duration then
              let r1 := handleAssetFailedConfirmation s0 tid
              let r2 := handlePaymentFailedConfirmation r1.1 tid
              let s3 : OState := { r2.1 with
                assetTrades := KV.del r2.1.assetTrades tid,
                paymentTrades := KV.del r2.1.paymentTrades tid,
                cross := ⟨KV.del r2.1.cross.assetKeyed tid,
                          KV.del r2.1.cross.payKeyed tid⟩ }
              some (s3, r1.2 ++ r2.2)
            else none
          | none => none
        match cancel with
        | some r => r
        | none =>
          let r0 : AssetRecord := ⟨now, dur, reqId, now, none⟩
          let s1 : OState := { s0 with assetTrades := KV.set s0.assetTrades tid r0 }
          if fulfillOk then (s1, [.fulfillAsset reqId now])
          else (s1, [])       -- the catch clause only logs: the record stays
      | some tr =>
        if (now : Int) - tr.inceptionTime ≤ tr.duration then
          let tr' : AssetRecord := { tr with lastRequestId := reqId, lastRequestTime := now }
          let s1 : OState := { s0 with assetTrades := KV.set s0.assetTrades tid tr' }
          if fulfillOk then (s1, [.fulfillAsset reqId now])
          else (s1, [])
        else
          let r1 := handleAssetFailedConfirmation s0 tid
          ({ r1.1 with assetTrades := KV.del r1.1.assetTrades tid }, r1.2)
    ({ body.1 with processingAsset := removeId body.1.processingAsset tid }, body.2)

def handlePaymentTimeRequest (s : OState) (reqId pid dur now : Nat)
    (fulfillOk : Bool) : OState × List Call :=
  if s.processingPayment.contains pid then
    ({ s with paymentQueue := s.paymentQueue ++ [(reqId, pid, dur)] }, [])
  else
    let s0 : OState := { s with processingPayment := addId s.processingPayment pid }
    let body : OState × List Call :=
      match KV.get s0.paymentTrades pid with
      | none =>
        -- initial creation
        match KV.get s0.assetTrades pid with
        | some a =>
          if a.duration < dur then
            -- `performImmediateDoubleSpendCheck` cancels both legs; not stamped
            let r1 := handleAssetFailedConfirmation s0 pid
            let r2 := handlePaymentFailedConfirmation r1.1 pid
            let s3 : OState := { r2.1 with
              assetTrades := KV.del r2.1.assetTrades pid,
              paymentTrades := KV.del r2.1.paymentTrades pid,
              cross := ⟨KV.del r2.1.cross.assetKeyed pid,
                        KV.del r2.1.cross.payKeyed pid⟩ }
            (s3, r1.2 ++ r2.2)
          else
            let synced := a.inceptionTime
            let s1 : OState := { s0 with
              cross := ⟨KV.set s0.cross.assetKeyed pid pid,
                        KV.set s0.cross.payKeyed pid pid⟩ }
            let r0 : PaymentRecord := ⟨synced, dur, reqId, synced, false, none⟩
            let s2 : OState := { s1 with paymentTrades := KV.set s1.paymentTrades pid r0 }
            if fulfillOk then (s2, [.fulfillPayment reqId synced])
            else       -- catch clause: `paymentTrades.delete(paymentId)`
              ({ s2 with paymentTrades := KV.del s2.paymentTrades pid }, [])
        | none =>
          let r0 : PaymentRecord := ⟨now, dur, reqId, now, false, none⟩
          let s1 : OState := { s0 with paymentTrades := KV.set s0.paymentTrades pid r0 }
          if fulfillOk then (s1, [.fulfillPayment reqId now])
          else ({ s1 with paymentTrades := KV.del s1.paymentTrades pid }, [])
      | some p =>
        -- confirmation phase
        let confTime : Nat :=
          match KV.get s0.assetTrades pid with
          | some a =>
            max (if a.lastRequestTime ≠ 0 then a.lastRequestTime else a.inceptionTime) now
          | none => now
        if (confTime : Int) - p.inceptionTime ≤ p.duration then
          let p' : PaymentRecord := { p with
            lastRequestId := reqId, lastRequestTime := confTime, isConfirmationPhase := true }
          let s1 : OState := { s0 with paymentTrades := KV.set s0.paymentTrades pid p' }
          if fulfillOk then (s1, [.fulfillPayment reqId confTime])
          else ({ s1 with paymentTrades := KV.del s1.paymentTrades pid }, [])
        else
          let r1 := handlePaymentFailedConfirmation s0 pid
          ({ r1.1 with paymentTrades := KV.del r1.1.paymentTrades pid }, r1.2)
    ({ body.1 with processingPayment := removeId body.1.processingPayment pid }, body.2)

/-! ## Timeout sweeper classification

`checkAndHandleExpiredTrades` (`src/unnamed/part_001` lines 782-962)
classifies each non-processing record: the execution-timeout branch fires
when `trade.confirmationTime` is truthy, `now - confirmationTime >
duration` and `now - inceptionTime ≤ 2 * duration`; otherwise the record
is expired when `now - inceptionTime > duration`, else healthy. -/

inductive SweepClass
  | execTimeout
  | expired
  | healthy
deriving Repr, DecidableEq

def classifyAsset (now : Nat) (r : AssetRecord) : SweepClass :=
  let elapsed : Int := (now : Int) - r.inceptionTime
  let isExecTO : Bool :=
    match r.confirmationTime with
    | some c => decide (c ≠ 0) && decide ((now : Int) - c > r.duration)
        && decide (elapsed ≤ 2 * r.duration)
    | none => false
  if isExecTO then .execTimeout
  else if elapsed > r.duration then .expired
  else .healthy

def classifyPayment (now : Nat) (r : PaymentRecord) : SweepClass :=
  let elapsed : Int := (now : Int) - r.inceptionTime
  let isExecTO : Bool :=
    match r.confirmationTime with
    | some c => decide (c ≠ 0) && decide ((now : Int) - c > r.duration)
        && decide (elapsed ≤ 2 * r.duration)
    | none => false
  if isExecTO then .execTimeout
  else if elapsed > r.duration then .expired
  else .healthy

/-- `pollAssetEvents` cursor update (`src/unnamed/part_001` lines 965-1013):
the cursor moves to `latest` only when `latest > last`; on RPC error or
no-news ticks it is unchanged. -/
def advanceCursor (last latest : Nat) : Nat :=
  if latest ≤ last then last else latest

/-! ## Nonce-retry behaviour of the submitters

`fulfillAssetTime` (`src/unnamed/part_001` lines 251-278) retries on a
"nonce too low" error by refreshing the nonce from the chain and calling
itself again, with no retry counter; any other error is re-thrown after
one attempt.  `fulfillPaymentTime` (lines 571-644) carries a `retryCount`
and retries a nonce-too-low error only while `retryCount < maxRetries`
(3), refreshing the nonce each time; when the cap is reached, or on any
other error, it throws.  The chain's response to each successive `send`
attempt is supplied as a list; the result is `(attempts, refreshes,
success?)`, or `none` when the supplied responses are exhausted while the
function would still be retrying. -/

inductive SendOutcome
  | ok
  | nonceTooLow
  | otherError
deriving Repr, DecidableEq

def fulfillAssetTime : List SendOutcome → Option (Nat × Nat × Bool)
  | [] => none
  | .ok :: _ => some (1, 0, true)
  | .otherError :: _ => some (1, 0, false)
  | .nonceTooLow :: rest =>
      (fulfillAssetTime rest).map (fun r => (r.1 + 1, r.2.1 + 1, r.2.2))

def fulfillPaymentTime : List SendOutcome → Nat → Option (Nat × Nat × Bool)
  | [], _ => none
  | .ok :: _, _ => some (1, 0, true)
  | .otherError :: _, _ => some (1, 0, false)
  | .nonceTooLow :: rest, retryCount =>
      if retryCount < 3 then
        (fulfillPaymentTime rest (retryCount + 1)).map
          (fun r => (r.1 + 1, r.2.1 + 1, r.2.2))
      else some (1, 1, false)   -- nonce refreshed, then the error is thrown

/-! ## Cross-chain transaction verifier

`src/backend/services/crossChainTransactionVerifier.js`.  The chain's
responses over the run are packaged in `VerifierEnv`: the receipt and
transaction once mined (`none` = not mined before the deadline), the
current block number at the start, the successive `getBlockNumber` reads
the confirmation-wait loop can make before its deadline, the transaction
hashes of the containing block, and the receipt re-read of step 7.
`eth_getProof` never affects the verdict (an unsupported or failing proof
downgrades to basic verification) and is omitted. -/

structure VReceipt where
  status : Nat
  blockNumber : Nat
  blockHash : Nat
  logs : List (Nat × Bool × Option (Nat × Nat × Nat))
    -- (emitting address, topic0 = PaymentCompleted selector?, decoded data)
deriving Repr, DecidableEq

structure VTx where
  toAddr : Option Nat
deriving Repr, DecidableEq

structure VerifierEnv where
  receiptNow : Option VReceipt
  txNow : Option VTx
  initBlock : Nat
  waitBlocks : List Nat
  blockTxs : List Nat
  requery : Option VReceipt
deriving Repr, DecidableEq

/-- The step-3 wait loop: read `getBlockNumber`; exit with the current
read once `currentBlock - receipt.blockNumber + 1 ≥ confirmations`; when
the reads are exhausted the deadline has passed and the loop exits with
the last read, whatever the confirmation count. -/
def waitConfirmations (confirmations rcptBlock : Nat) :
    List Nat → Nat → Nat
  | [], cur => cur
  | b :: rest, _ =>
      if (b : Int) - rcptBlock + 1 ≥ confirmations then b
      else waitConfirmations confirmations rcptBlock rest b

/-- The verdict of `verifyTransactionExecution`.  The confirmation wait of
step 3 runs between the status check and the block-inclusion check, but
its outcome is never re-tested after the loop exits — the verdict does not
depend on `waitConfirmations` (its value is only reported back, see
`accruedConfirmations`). -/
def verifyTransactionExecution (txHash confirmations : Nat)
    (env : VerifierEnv) : Bool :=
  match env.receiptNow, env.txNow with
  | some r, some _ =>
    if r.status ≠ 1 then false
    else if env.blockTxs.contains txHash then
      match env.requery with
      | some r2 => decide (r2.blockHash = r.blockHash)
      | none => false
    else false
  | _, _ => false

/-- The `proof.confirmations` field of the returned result:
`currentBlock - receipt.blockNumber + 1` with `currentBlock` as the wait
loop left it. -/
def accruedConfirmations (confirmations : Nat) (env : VerifierEnv) : Int :=
  match env.receiptNow with
  | some r =>
      (waitConfirmations confirmations r.blockNumber env.waitBlocks env.initBlock : Int)
        - r.blockNumber + 1
  | none => 0

/-- `verifyPaymentTransferTransaction`: runs the base verification, then
requires the transaction target to be the payment contract and scans
`receipt.logs` for a `PaymentCompleted` log from that contract whose
decoded `paymentId` equals the expected one.  Returns
`(verified, paymentVerified)`. -/
def verifyPaymentTransferTransaction (txHash contractAddr paymentId confirmations : Nat)
    (env : VerifierEnv) : Bool × Bool :=
  if verifyTransactionExecution txHash confirmations env = false then (false, false)
  else
    match env.receiptNow, env.txNow with
    | some r, some t =>
      match t.toAddr with
      | none => (false, false)      -- `transaction.to.toLowerCase()` throws
      | some addr =>
        if addr ≠ contractAddr then (false, false)
        else if r.logs.any (fun l =>
            l.1 = contractAddr && l.2.1 &&
              match l.2.2 with
              | some dd => decide (dd.1 = paymentId)
              | none => false) then (true, true)
        else (false, false)
    | _, _ => (false, false)

/-- `calculateRequiredConfirmations` maps the transferred value (wei) to a
confirmation count; thresholds in wei mirror the ≥10 / ≥1 / ≥0.1 ETH
bands of the source. -/
def calculateRequiredConfirmations (amountWei : Nat) : Nat :=
  if amountWei ≥ 10000000000000000000 then 30
  else if amountWei ≥ 1000000000000000000 then 20
  else if amountWei ≥ 100000000000000000 then 15
  else 10

/-! ## Health endpoint

`GET /health` (`src/unnamed/part_001` lines 1373-1424): start `healthy`;
a failing asset-chain probe flips to `degraded`, likewise a failing
payment-chain probe; when both probes fail the status becomes
`unhealthy`.  HTTP code 200 for `healthy`/`degraded`, 503 otherwise; the
outer catch answers 503 `unhealthy`. -/

inductive HealthStatus
  | healthy
  | degraded
  | unhealthy
deriving Repr, DecidableEq

def healthStatus (assetOk payOk : Bool) : HealthStatus :=
  let st := HealthStatus.healthy
  let st := if assetOk then st else .degraded
  let st := if payOk then st else .degraded
  if !assetOk && !payOk then .unhealthy else st

def healthHttpCode : HealthStatus → Nat
  | .healthy => 200
  | .degraded => 200
  | .unhealthy => 503

def healthEndpoint (assetOk payOk outerThrow : Bool) : HealthStatus × Nat :=
  if outerThrow then (.unhealthy, 503)
  else (healthStatus assetOk payOk, healthHttpCode (healthStatus assetOk payOk))

/-! ## Theorems -/

def emptyState : OState := ⟨[], [], ⟨[], []⟩, [], [], [], []⟩

/-- When no pair entry binds the asset leg, its failed-confirmation handler
only submits the callback and deletes the local record. -/
theorem assetFailF_noPair (fuel : Nat) (s : OState) (tid : Nat)
    (h : KV.get s.cross.assetKeyed tid = none) :
    handleAssetFailedConfirmationF fuel s tid =
      ({ s with assetTrades := KV.del s.assetTrades tid }, [Call.failAsset tid]) := by
  cases fuel <;> simp [handleAssetFailedConfirmationF, h]

/-- When no pair entry binds the payment leg, its failed-confirmation
handler only submits the callback and deletes the local record. -/
theorem payFailF_noPair (fuel : Nat) (s : OState) (pid : Nat)
    (h : KV.get s.cross.payKeyed pid = none) :
    handlePaymentFailedConfirmationF fuel s pid =
      ({ s with paymentTrades := KV.del s.paymentTrades pid }, [Call.failPayment pid]) := by
  cases fuel <;> simp [handlePaymentFailedConfirmationF, h]

/-- C1: Timeout-inversion guard.  When the Payment leg's creation request
arrives while an Asset leg for the same trade id already exists with
`asset_duration < payment_duration`, the oracle calls
`handleFailedConfirmation` on both contracts, clears both local trade
records and the cross-chain pair mapping, and never sends `fulfillTime`
for the incoming Payment request. -/
theorem timeout_inversion_guard (t reqId d now : Nat) (a : AssetRecord)
    (h : a.duration < d) :
    handlePaymentTimeRequest ⟨[(t, a)], [], ⟨[], []⟩, [], [], [], []⟩ reqId t d now true
      = (emptyState, [Call.failAsset t, Call.failPayment t]) ∧
    ∀ r tm, Call.fulfillPayment r tm ∉ [Call.failAsset t, Call.failPayment t] := by
  refine ⟨?_, by intro r tm; simp⟩
  simp [handlePaymentTimeRequest, handleAssetFailedConfirmation,
    handlePaymentFailedConfirmation, assetFailF_noPair, payFailF_noPair,
    KV.get, KV.del, addId, removeId, emptyState, h]

theorem timeout_inversion_guard_witness :
    (300 : Nat) < 600 ∧
    (handlePaymentTimeRequest ⟨[(42, ⟨1000, 300, 9, 1000, none⟩)], [], ⟨[], []⟩, [], [], [], []⟩
        7 42 600 1005 true
      = (emptyState, [Call.failAsset 42, Call.failPayment 42]) ∧
     ∀ r tm, Call.fulfillPayment r tm ∉ [Call.failAsset 42, Call.failPayment 42]) :=
  ⟨by decide, timeout_inversion_guard 42 7 600 1005 ⟨1000, 300, 9, 1000, none⟩ (by decide)⟩

/-- C7 counterexample: after a nonce-too-low failure the submitter does
not retry exactly once.  `fulfillAssetTime` fed two consecutive
nonce-too-low responses retries twice (3 attempts, 2 nonce refreshes), and
`fulfillPaymentTime` retries up to three times (4 attempts): both exceed
the claimed single retry. -/
theorem nonce_retry_counterexample :
    fulfillAssetTime [.nonceTooLow, .nonceTooLow, .ok] = some (3, 2, true) ∧
    fulfillPaymentTime [.nonceTooLow, .nonceTooLow, .nonceTooLow, .ok] 0 = some (4, 3, true) ∧
    ¬ (3 : Nat) ≤ 2 := by decide

/-- Attempt count of `fulfillPaymentTime` is bounded by `4 - retryCount`
for any `retryCount ≤ 3`. -/
theorem fulfillPaymentTime_bound (outs : List SendOutcome) :
    ∀ rc, rc ≤ 3 → ∀ r, fulfillPaymentTime outs rc = some r → r.1 ≤ 4 - rc := by
  induction outs with
  | nil => intro rc _ r h; simp [fulfillPaymentTime] at h
  | cons o rest ih =>
    intro rc hrc r h
    cases o with
    | ok =>
      simp [fulfillPaymentTime] at h
      subst h; simp; omega
    | otherError =>
      simp [fulfillPaymentTime] at h
      subst h; simp; omega
    | nonceTooLow =>
      by_cases hlt : rc < 3
      · simp only [fulfillPaymentTime, if_pos hlt, Option.map_eq_some'] at h
        obtain ⟨r', hr', hEq⟩ := h
        have hb := ih (rc + 1) (by omega) r' hr'
        subst hEq
        simp at hb ⊢
        omega
      · simp only [fulfillPaymentTime, if_neg hlt, Option.some.injEq] at h
        subst h
        simp
        omega

/-- C7 amended: on a nonce-too-low error the submitter refreshes the
nonce from the chain and retries, but not exactly once: the asset-side
submitter retries unboundedly (k consecutive nonce-too-low responses
yield k + 1 attempts and k refreshes), and the payment-side submitter
retries at most `maxRetries = 3` times (at most 4 attempts).  Neither
function touches the trade tables. -/
theorem nonce_retry_amended :
    (∀ k : Nat, fulfillAssetTime (List.replicate k .nonceTooLow ++ [.ok])
        = some (k + 1, k, true)) ∧
    (∀ outs r, fulfillPaymentTime outs 0 = some r → r.1 ≤ 4) := by
  constructor
  · intro k
    induction k with
    | zero => rfl
    | succ n ih => simp [List.replicate_succ, fulfillAssetTime, ih]
  · intro outs r h
    simpa using fulfillPaymentTime_bound outs 0 (by omega) r h

theorem nonce_retry_amended_witness :
    fulfillAssetTime (List.replicate 5 .nonceTooLow ++ [.ok]) = some (6, 5, true) ∧
    ((2 : Nat), (1 : Nat), true).1 ≤ 4 :=
  ⟨nonce_retry_amended.1 5,
   nonce_retry_amended.2 [.nonceTooLow, .ok] (2, 1, true) (by decide)⟩

/-- C10: the `/health` endpoint answers HTTP 200 exactly when the handler
does not throw and at least one chain probe succeeds, reporting `healthy`
when both succeed and `degraded` when exactly one does; it answers 503
with status `unhealthy` exactly when both probes fail or the handler
throws. -/
theorem health_endpoint_semantics :
    ∀ a p t : Bool,
      ((healthEndpoint a p t).2 = 200 ↔ (t = false ∧ (a = true ∨ p = true))) ∧
      ((healthEndpoint a p t).1 = .healthy ↔ (t = false ∧ a = true ∧ p = true)) ∧
      ((healthEndpoint a p t).1 = .degraded ↔
        (t = false ∧ ((a = true ∧ p = false) ∨ (a = false ∧ p = true)))) ∧
      ((healthEndpoint a p t).2 = 503 ∧ (healthEndpoint a p t).1 = .unhealthy ↔
        (t = true ∨ (a = false ∧ p = false))) := by decide

/-- A run of the verifier in which the wait loop's deadline passes after a
single block reading with only 1 confirmation accumulated (the receipt is
in block 1000 and the chain never advances), while every other check
passes. -/
def verifierCexEnv : VerifierEnv :=
  ⟨some ⟨1, 1000, 77, [(50, true, some (7, 3, 5))]⟩, some ⟨some 50⟩,
   1000, [], [100], some ⟨1, 1000, 77, [(50, true, some (7, 3, 5))]⟩⟩

/-- C2 counterexample: the verifier returns a positive verdict although
the required 20 confirmations never accumulated — the step-3 wait loop
exits when its deadline passes and the code proceeds to the remaining
checks without re-testing the confirmation count.  Here only 1
confirmation exists, yet `verified = true` and `paymentVerified = true`. -/
theorem verifier_soundness_counterexample :
    verifyTransactionExecution 100 20 verifierCexEnv = true ∧
    verifyPaymentTransferTransaction 100 50 7 20 verifierCexEnv = (true, true) ∧
    accruedConfirmations 20 verifierCexEnv = 1 ∧ ¬ (20 : Int) ≤ 1 := by decide

/-- C2 amended: a positive verdict still requires a successful receipt
(`status = 1`), the transaction hash listed in its containing block, and a
block hash that matches between the first receipt read and the re-read
after the wait window; `paymentVerified = true` additionally requires the
transaction target to be the payment contract and a decodable
`PaymentCompleted` log from that contract with the expected payment id.
The required-confirmations conjunct of the claim does not hold: the
confirmation wait is abandoned when the deadline passes. -/
theorem verifier_soundness_amended (txHash conf : Nat) (env : VerifierEnv) :
    (verifyTransactionExecution txHash conf env = true →
      ∃ r, env.receiptNow = some r ∧ r.status = 1 ∧
        env.blockTxs.contains txHash = true ∧
        ∃ r2, env.requery = some r2 ∧ r2.blockHash = r.blockHash) ∧
    (∀ addr pid,
      (verifyPaymentTransferTransaction txHash addr pid conf env).2 = true →
      verifyTransactionExecution txHash conf env = true ∧
      (∃ t, env.txNow = some t ∧ t.toAddr = some addr) ∧
      ∃ r, env.receiptNow = some r ∧
        ∃ l ∈ r.logs, l.1 = addr ∧ l.2.1 = true ∧ ∃ dd, l.2.2 = some dd ∧ dd.1 = pid) := by
  constructor
  · intro hv
    unfold verifyTransactionExecution at hv
    rcases hr : env.receiptNow with _ | r <;> rcases ht : env.txNow with _ | t <;>
      rw [hr, ht] at hv <;> try simp at hv
    obtain ⟨h1, h2, h3⟩ := hv
    rcases hq : env.requery with _ | r2 <;> rw [hq] at h3
    · simp at h3
    · exact ⟨r, rfl, h1, by simpa using h2, r2, rfl, by simpa using h3⟩
  · intro addr pid hpv
    unfold verifyPaymentTransferTransaction at hpv
    by_cases hb : verifyTransactionExecution txHash conf env = false
    · rw [if_pos hb] at hpv; simp at hpv
    · rw [if_neg hb] at hpv
      have hbt : verifyTransactionExecution txHash conf env = true :=
        Bool.ne_false_iff.mp hb
      rcases hr : env.receiptNow with _ | r <;> rcases ht : env.txNow with _ | t <;>
        rw [hr, ht] at hpv <;> dsimp only at hpv
      · simp at hpv
      · simp at hpv
      · simp at hpv
      rcases hto : t.toAddr with _ | a0 <;> rw [hto] at hpv <;> try dsimp only at hpv
      · simp at hpv
      by_cases ha : a0 ≠ addr
      · rw [if_pos ha] at hpv; simp at hpv
      · rw [if_neg ha] at hpv
        push_neg at ha
        subst ha
        split_ifs at hpv with hf
        · refine ⟨hbt, ⟨t, rfl, hto⟩, r, rfl, ?_⟩
          rcases List.any_eq_true.mp hf with ⟨l, hl, hcond⟩
          try dsimp only at hcond
          rw [Bool.and_eq_true, Bool.and_eq_true] at hcond
          obtain ⟨⟨hA, hB⟩, hC⟩ := hcond
          refine ⟨l, hl, by simpa using hA, hB, ?_⟩
          rcases hd : l.2.2 with _ | dd <;> rw [hd] at hC
          · simp at hC
          · exact ⟨dd, rfl, by simpa using hC⟩

theorem verifier_soundness_amended_witness :
    (verifyPaymentTransferTransaction 100 50 7 20 verifierCexEnv).2 = true ∧
    (verifyTransactionExecution 100 20 verifierCexEnv = true ∧
     (∃ t, verifierCexEnv.txNow = some t ∧ t.toAddr = some 50) ∧
     ∃ r, verifierCexEnv.receiptNow = some r ∧
       ∃ l ∈ r.logs, l.1 = 50 ∧ l.2.1 = true ∧ ∃ dd, l.2.2 = some dd ∧ dd.1 = 7) :=
  ⟨by decide, (verifier_soundness_amended 100 20 verifierCexEnv).2 50 7 (by decide)⟩

/-- C3 (code-bug evidence): neither time-request handler ever writes a
`confirmationTime` field into the local record, so the sweeper's
execution-timeout branch — gated on `trade.confirmationTime` — can never
fire.  Concretely (spec scenario 3): trade 42 is created at 1000 with
duration 150 and its confirmation request is stamped at 1015; at the
sweep at 1180 the record still has `confirmationTime = none`, and the
sweeper classifies the leg as confirmation-expired
(`handleFailedConfirmation`) instead of execution-timed-out. -/
theorem execution_timeout_never_fires :
    handleAssetTimeRequest emptyState 1 42 150 1000 true
      = (⟨[(42, ⟨1000, 150, 1, 1000, none⟩)], [], ⟨[], []⟩, [], [], [], []⟩,
         [Call.fulfillAsset 1 1000]) ∧
    handleAssetTimeRequest ⟨[(42, ⟨1000, 150, 1, 1000, none⟩)], [], ⟨[], []⟩, [], [], [], []⟩
        2 42 150 1015 true
      = (⟨[(42, ⟨1000, 150, 2, 1015, none⟩)], [], ⟨[], []⟩, [], [], [], []⟩,
         [Call.fulfillAsset 2 1015]) ∧
    (⟨1000, 150, 2, 1015, none⟩ : AssetRecord).confirmationTime = none ∧
    classifyAsset 1180 ⟨1000, 150, 2, 1015, none⟩ = .expired ∧
    classifyAsset 1180 ⟨1000, 150, 2, 1015, none⟩ ≠ .execTimeout := by decide

/-- C4 counterexample: an in-window confirmation-phase request on the
Asset leg is stamped (`fulfillTime` is called), but the handler does not
set `confirmation_time` on the local record — the record keeps
`confirmationTime = none` (and asset-side records carry no
`is_confirmation_phase` flag at all), contradicting the claim that the
oracle "sets is_confirmation_phase = true, sets confirmation_time". -/
theorem confirmation_window_counterexample :
    handleAssetTimeRequest ⟨[(5, ⟨1000, 3600, 1, 1000, none⟩)], [], ⟨[], []⟩, [], [], [], []⟩
        2 5 3600 1120 true
      = (⟨[(5, ⟨1000, 3600, 2, 1120, none⟩)], [], ⟨[], []⟩, [], [], [], []⟩,
         [Call.fulfillAsset 2 1120]) ∧
    (⟨1000, 3600, 2, 1120, none⟩ : AssetRecord).confirmationTime = none := by decide

/-- C4 amended: on a confirmation-phase request, if the elapsed time
exceeds `duration` the oracle does not stamp and drives the leg to
failure via `handleFailedConfirmation`; otherwise it records
`last_request_id` and `last_request_time` (the Payment handler also sets
`is_confirmation_phase = true`), and calls `fulfillTime` with the
computed timestamp — but neither handler writes a `confirmation_time`
field to the local record.  No `fulfillTime` is emitted whose timestamp
makes `stamp - inception_time > duration`. -/
theorem confirmation_window_amended (t req d now : Nat) (tr : AssetRecord) (p : PaymentRecord) :
    (((now : Int) - tr.inceptionTime ≤ tr.duration →
       handleAssetTimeRequest ⟨[(t, tr)], [], ⟨[], []⟩, [], [], [], []⟩ req t d now true
         = (⟨[(t, { tr with lastRequestId := req, lastRequestTime := now })],
             [], ⟨[], []⟩, [], [], [], []⟩, [Call.fulfillAsset req now])) ∧
     ((now : Int) - tr.inceptionTime > tr.duration →
       handleAssetTimeRequest ⟨[(t, tr)], [], ⟨[], []⟩, [], [], [], []⟩ req t d now true
         = (emptyState, [Call.failAsset t]))) ∧
    (((now : Int) - p.inceptionTime ≤ p.duration →
       handlePaymentTimeRequest ⟨[], [(t, p)], ⟨[], []⟩, [], [], [], []⟩ req t d now true
         = (⟨[], [(t, ⟨p.inceptionTime, p.duration, req, now, true, p.confirmationTime⟩)],
             ⟨[], []⟩, [], [], [], []⟩, [Call.fulfillPayment req now])) ∧
     ((now : Int) - p.inceptionTime > p.duration →
       handlePaymentTimeRequest ⟨[], [(t, p)], ⟨[], []⟩, [], [], [], []⟩ req t d now true
         = (emptyState, [Call.failPayment t]))) := by
  refine ⟨⟨?_, ?_⟩, ?_, ?_⟩
  · intro h
    simp [handleAssetTimeRequest, KV.get, KV.set, addId, removeId, h]
  · intro h
    have h' : ¬ ((now : Int) - tr.inceptionTime ≤ tr.duration) := by omega
    simp [handleAssetTimeRequest, handleAssetFailedConfirmation, assetFailF_noPair,
      KV.get, KV.del, addId, removeId, emptyState, h']
  · intro h
    simp [handlePaymentTimeRequest, KV.get, KV.set, addId, removeId, h]
  · intro h
    have h' : ¬ ((now : Int) - p.inceptionTime ≤ p.duration) := by omega
    simp [handlePaymentTimeRequest, handlePaymentFailedConfirmation, payFailF_noPair,
      KV.get, KV.del, addId, removeId, emptyState, h']

theorem confirmation_window_amended_witness :
    (handleAssetTimeRequest ⟨[(5, ⟨1000, 3600, 9, 1000, none⟩)], [], ⟨[], []⟩, [], [], [], []⟩
        2 5 3600 1120 true
      = (⟨[(5, ⟨1000, 3600, 2, 1120, none⟩)], [], ⟨[], []⟩, [], [], [], []⟩,
         [Call.fulfillAsset 2 1120])) ∧
    (handleAssetTimeRequest ⟨[(5, ⟨1000, 3600, 9, 1000, none⟩)], [], ⟨[], []⟩, [], [], [], []⟩
        2 5 3600 9999 true
      = (emptyState, [Call.failAsset 5])) ∧
    (handlePaymentTimeRequest ⟨[], [(5, ⟨1000, 3600, 9, 1000, false, none⟩)], ⟨[], []⟩, [], [], [], []⟩
        2 5 3600 1120 true
      = (⟨[], [(5, ⟨1000, 3600, 2, 1120, true, none⟩)], ⟨[], []⟩, [], [], [], []⟩,
         [Call.fulfillPayment 2 1120])) ∧
    (handlePaymentTimeRequest ⟨[], [(5, ⟨1000, 3600, 9, 1000, false, none⟩)], ⟨[], []⟩, [], [], [], []⟩
        2 5 3600 9999 true
      = (emptyState, [Call.failPayment 5])) :=
  ⟨(confirmation_window_amended 5 2 3600 1120 ⟨1000, 3600, 9, 1000, none⟩
      ⟨1000, 3600, 9, 1000, false, none⟩).1.1 (by decide),
   (confirmation_window_amended 5 2 3600 9999 ⟨1000, 3600, 9, 1000, none⟩
      ⟨1000, 3600, 9, 1000, false, none⟩).1.2 (by decide),
   (confirmation_window_amended 5 2 3600 1120 ⟨1000, 3600, 9, 1000, none⟩
      ⟨1000, 3600, 9, 1000, false, none⟩).2.1 (by decide),
   (confirmation_window_amended 5 2 3600 9999 ⟨1000, 3600, 9, 1000, none⟩
      ⟨1000, 3600, 9, 1000, false, none⟩).2.2 (by decide)⟩

/-- C5 counterexample: a confirmation-phase request on the Asset chain
with a paired Payment leg whose `last_request_time` (2000) exceeds
`now()` (1500) is stamped with 1500, not with
`max(now, other_leg.last_request_time) = 2000`: the Asset-side handler
never consults the paired leg when computing the stamp. -/
theorem confirmation_sync_counterexample :
    handleAssetTimeRequest
        ⟨[(7, ⟨1000, 3600, 1, 1000, none⟩)], [(7, ⟨1000, 3600, 1, 2000, false, none⟩)],
         ⟨[(7, 7)], [(7, 7)]⟩, [], [], [], []⟩ 2 7 3600 1500 true
      = (⟨[(7, ⟨1000, 3600, 2, 1500, none⟩)], [(7, ⟨1000, 3600, 1, 2000, false, none⟩)],
          ⟨[(7, 7)], [(7, 7)]⟩, [], [], [], []⟩, [Call.fulfillAsset 2 1500]) ∧
    (1500 : Nat) ≠ max 1500 2000 := by decide

/-- C5 amended: only the Payment-side confirmation handler synchronizes:
with an Asset leg present it stamps
`max(asset.last_request_time | asset.inception_time, now)`, and without
one it stamps `now()`.  The Asset-side confirmation handler always stamps
`now()`, ignoring any paired Payment leg. -/
theorem confirmation_sync_amended (t req d now : Nat) (a : AssetRecord) (p : PaymentRecord) :
    (((max (if a.lastRequestTime ≠ 0 then a.lastRequestTime else a.inceptionTime) now : Int)
        - p.inceptionTime ≤ p.duration →
      (handlePaymentTimeRequest ⟨[(t, a)], [(t, p)], ⟨[(t, t)], [(t, t)]⟩, [], [], [], []⟩
          req t d now true).2
        = [Call.fulfillPayment req
            (max (if a.lastRequestTime ≠ 0 then a.lastRequestTime else a.inceptionTime) now)]) ∧
    ((now : Int) - p.inceptionTime ≤ p.duration →
      (handlePaymentTimeRequest ⟨[], [(t, p)], ⟨[], []⟩, [], [], [], []⟩ req t d now true).2
        = [Call.fulfillPayment req now])) ∧
    ((now : Int) - a.inceptionTime ≤ a.duration →
      (handleAssetTimeRequest ⟨[(t, a)], [(t, p)], ⟨[(t, t)], [(t, t)]⟩, [], [], [], []⟩
          req t d now true).2
        = [Call.fulfillAsset req now]) := by
  refine ⟨⟨?_, ?_⟩, ?_⟩
  · intro h
    by_cases hz : a.lastRequestTime = 0
    · have h' : (max a.inceptionTime now : Int) - p.inceptionTime ≤ p.duration := by
        simpa [hz] using h
      simp [handlePaymentTimeRequest, KV.get, KV.set, addId, removeId, hz, h']
    · have h' : (max a.lastRequestTime now : Int) - p.inceptionTime ≤ p.duration := by
        simpa [hz] using h
      simp [handlePaymentTimeRequest, KV.get, KV.set, addId, removeId, hz, h']
  · intro h
    simp [handlePaymentTimeRequest, KV.get, KV.set, addId, removeId, h]
  · intro h
    simp [handleAssetTimeRequest, KV.get, KV.set, addId, removeId, h]

theorem confirmation_sync_amended_witness :
    ((handlePaymentTimeRequest
        ⟨[(7, ⟨1000, 3600, 1, 2000, none⟩)], [(7, ⟨1000, 3600, 1, 1000, false, none⟩)],
         ⟨[(7, 7)], [(7, 7)]⟩, [], [], [], []⟩ 2 7 3600 1500 true).2
      = [Call.fulfillPayment 2 (max (if (2000 : Nat) ≠ 0 then 2000 else 1000) 1500)]) ∧
    ((handleAssetTimeRequest
        ⟨[(7, ⟨1000, 3600, 1, 2000, none⟩)], [(7, ⟨1000, 3600, 1, 1000, false, none⟩)],
         ⟨[(7, 7)], [(7, 7)]⟩, [], [], [], []⟩ 2 7 3600 1500 true).2
      = [Call.fulfillAsset 2 1500]) :=
  ⟨(confirmation_sync_amended 7 2 3600 1500 ⟨1000, 3600, 1, 2000, none⟩
      ⟨1000, 3600, 1, 1000, false, none⟩).1.1 (by decide),
   (confirmation_sync_amended 7 2 3600 1500 ⟨1000, 3600, 1, 2000, none⟩
      ⟨1000, 3600, 1, 1000, false, none⟩).2 (by decide)⟩

/-- C6 counterexample: re-processing the same creation event
`(request_id 9, trade_id 3, duration 3600)` produces a second on-chain
`fulfillTime` callback with the same `(request_id, trade_id)`: the second
processing finds the record created by the first and treats the replayed
event as a confirmation-phase request.  The handlers are not idempotent
by `(request_id, trade_id)`. -/
theorem idempotent_resumption_counterexample :
    (handleAssetTimeRequest emptyState 9 3 3600 1000 true).2
      = [Call.fulfillAsset 9 1000] ∧
    (handleAssetTimeRequest (handleAssetTimeRequest emptyState 9 3 3600 1000 true).1
        9 3 3600 1010 true).2
      = [Call.fulfillAsset 9 1010] := by decide

/-- C6 amended: the event pump's `last_processed_block` never decreases,
but re-processing is not absorbed: the handlers carry no dedup by
`request_id`, so re-processing a creation event within the validity
window emits a second `fulfillTime` for the same
`(request_id, trade_id)`. -/
theorem idempotent_resumption_amended :
    (∀ last latest : Nat, last ≤ advanceCursor last latest) ∧
    (∀ req t d now1 now2 : Nat, (now2 : Int) - now1 ≤ d →
      (handleAssetTimeRequest (handleAssetTimeRequest emptyState req t d now1 true).1
          req t d now2 true).2
        = [Call.fulfillAsset req now2]) := by
  constructor
  · intro last latest
    unfold advanceCursor
    split_ifs with h <;> omega
  · intro req t d now1 now2 h
    simp [handleAssetTimeRequest, emptyState, KV.get, KV.set, addId, removeId, h]

theorem idempotent_resumption_amended_witness :
    (0 : Nat) ≤ advanceCursor 0 5 ∧
    (handleAssetTimeRequest (handleAssetTimeRequest emptyState 9 3 3600 1000 true).1
        9 3 3600 1010 true).2
      = [Call.fulfillAsset 9 1010] :=
  ⟨idempotent_resumption_amended.1 0 5,
   idempotent_resumption_amended.2 9 3 3600 1000 1010 (by decide)⟩

/-- C8 counterexample: an Asset-leg creation whose callback submission
fails leaves the local trade record in place — the Asset handler's catch
clause only logs, it does not drop the record, contradicting the claim
for "either chain". -/
theorem record_drop_counterexample :
    (handleAssetTimeRequest emptyState 4 11 600 1000 false).2 = [] ∧
    KV.get (handleAssetTimeRequest emptyState 4 11 600 1000 false).1.assetTrades 11
      = some ⟨1000, 600, 4, 1000, none⟩ := by decide

/-- C8 amended: only the Payment-chain handler drops the leg's local
record when the callback submission errors (both on creation and on
confirmation); the Asset-chain handler's catch clause only logs, so the
record set before the failed submission survives. -/
theorem record_drop_amended (req t d now : Nat) (p : PaymentRecord) :
    (KV.get (handlePaymentTimeRequest emptyState req t d now false).1.paymentTrades t
      = none) ∧
    ((now : Int) - p.inceptionTime ≤ p.duration →
      KV.get (handlePaymentTimeRequest ⟨[], [(t, p)], ⟨[], []⟩, [], [], [], []⟩
          req t d now false).1.paymentTrades t = none) ∧
    (KV.get (handleAssetTimeRequest emptyState req t d now false).1.assetTrades t
      = some ⟨now, d, req, now, none⟩) := by
  refine ⟨?_, ?_, ?_⟩
  · simp [handlePaymentTimeRequest, emptyState, KV.get, KV.set, KV.del, addId, removeId]
  · intro h
    simp [handlePaymentTimeRequest, KV.get, KV.set, KV.del, addId, removeId, h]
  · simp [handleAssetTimeRequest, emptyState, KV.get, KV.set, addId, removeId]

theorem record_drop_amended_witness :
    KV.get (handlePaymentTimeRequest ⟨[], [(11, ⟨1000, 600, 4, 1000, false, none⟩)],
        ⟨[], []⟩, [], [], [], []⟩ 5 11 600 1050 false).1.paymentTrades 11 = none :=
  (record_drop_amended 5 11 600 1050 ⟨1000, 600, 4, 1000, false, none⟩).2.1 (by decide)

/-- C9 counterexample: when the Asset leg's creation observes a
pre-existing Payment leg (durations compatible: 200 ≥ 100), the handler
creates the Asset record and stamps it but establishes no CrossChainPair
entry — the mapping is set only in the opposite arrival order. -/
theorem pair_establishment_counterexample :
    handleAssetTimeRequest
        ⟨[], [(3, ⟨900, 100, 1, 900, false, none⟩)], ⟨[], []⟩, [], [], [], []⟩
        6 3 200 1000 true
      = (⟨[(3, ⟨1000, 200, 6, 1000, none⟩)], [(3, ⟨900, 100, 1, 900, false, none⟩)],
          ⟨[], []⟩, [], [], [], []⟩, [Call.fulfillAsset 6 1000]) ∧
    KV.get (handleAssetTimeRequest
        ⟨[], [(3, ⟨900, 100, 1, 900, false, none⟩)], ⟨[], []⟩, [], [], [], []⟩
        6 3 200 1000 true).1.cross.assetKeyed 3 = none := by decide

/-- C9 amended: the CrossChainPair mapping is established only when the
Payment leg's creation observes a pre-existing Asset leg (both key
families are then set); in the opposite arrival order — Asset creation
observing a pre-existing Payment leg — no pair entry is recorded. -/
theorem pair_establishment_amended (t req d now : Nat) (a : AssetRecord) (p : PaymentRecord) :
    (¬ a.duration < d →
      KV.get (handlePaymentTimeRequest ⟨[(t, a)], [], ⟨[], []⟩, [], [], [], []⟩
          req t d now true).1.cross.assetKeyed t = some t ∧
      KV.get (handlePaymentTimeRequest ⟨[(t, a)], [], ⟨[], []⟩, [], [], [], []⟩
          req t d now true).1.cross.payKeyed t = some t) ∧
    (¬ d < p.duration →
      (handleAssetTimeRequest ⟨[], [(t, p)], ⟨[], []⟩, [], [], [], []⟩
          req t d now true).1.cross = ⟨[], []⟩) := by
  constructor
  · intro h
    constructor <;>
      simp [handlePaymentTimeRequest, KV.get, KV.set, addId, removeId, h]
  · intro h
    simp [handleAssetTimeRequest, KV.get, KV.set, addId, removeId, h]

theorem pair_establishment_amended_witness :
    (KV.get (handlePaymentTimeRequest ⟨[(3, ⟨900, 200, 1, 900, none⟩)], [], ⟨[], []⟩,
        [], [], [], []⟩ 6 3 100 1000 true).1.cross.assetKeyed 3 = some 3 ∧
     KV.get (handlePaymentTimeRequest ⟨[(3, ⟨900, 200, 1, 900, none⟩)], [], ⟨[], []⟩,
        [], [], [], []⟩ 6 3 100 1000 true).1.cross.payKeyed 3 = some 3) ∧
    (handleAssetTimeRequest ⟨[], [(3, ⟨900, 100, 1, 900, false, none⟩)], ⟨[], []⟩,
        [], [], [], []⟩ 6 3 200 1000 true).1.cross = (⟨[], []⟩ : CrossMap) :=
  ⟨(pair_establishment_amended 3 6 100 1000 ⟨900, 200, 1, 900, none⟩
      ⟨900, 100, 1, 900, false, none⟩).1 (by decide),
   (pair_establishment_amended 3 6 200 1000 ⟨900, 200, 1, 900, none⟩
      ⟨900, 100, 1, 900, false, none⟩).2 (by decide)⟩

end TimerOracle
